import Mathlib

/-!
Shallow embedding of `src/utils/updateWebsiteMaster.ts`.

The file under verification exports two async functions:

  * `updateWebsiteMaster(websiteId, updates, options)` — resolves an
    endpoint URL, issues one HTTP PUT via `fetch`, and normalizes the
    response (or any thrown exception) into an `UpdateWebsiteMasterResult`
    value `{success, message?, websiteId?, website?, error?}`.
  * `updateWebsiteMasterFromFile(websiteDataPath, options)` — reads a JSON
    file, checks that the parsed document has a truthy `_id`, and delegates
    to `updateWebsiteMaster`.

Modelling choices, all driven by the JavaScript runtime semantics of the
source (TypeScript annotations are erased at runtime):

  * JSON/JavaScript values are the inductive `JsValue` (integers stand in
    for JS numbers; no claim depends on non-integer numerics).
  * The external world is a parameter: `fetchFn : FetchRequest →
    FetchOutcome` describes what the single `fetch` call does, and a
    `FetchOutcome` carries either a thrown value or a response whose
    `response.json()` outcome is an `Except` (an empty or malformed body
    makes `json()` throw).  `window`/`process.env` ambience is the `Env`
    record.  For the file entry point, the composite outcome of
    `fs.readFile` + `JSON.parse` (both platform primitives) is the
    `Except Thrown JsValue` argument.
  * Each function returns, besides its result, the list of fetch requests
    it issued, so that "no network call happens" is statable.
  * JS property access `data.error` on `null`/`undefined` throws a
    `TypeError` (caught by the surrounding `try`); on any other non-object
    it yields `undefined`.  `JsValue.getProp` models this.
  * A thrown JS value is either an `Error` instance (with a `.message`
    string) or an arbitrary other value; `error instanceof Error ?
    error.message : <fallback>` is `Thrown.messageOr`.
  * `console.error` logging is a side effect with no influence on results
    and is not modelled.
-/

mutual

/-- A JavaScript runtime value as far as the source observes it: the
`undefined` value, JSON scalars, arrays and objects.  JS numbers are
modelled as integers. -/
inductive JsValue where
  | undefined
  | null
  | bool (b : Bool)
  | num (n : Int)
  | str (s : String)
  | arr (elems : JsItems)
  | obj (fields : JsFields)
  deriving DecidableEq, Repr

/-- Elements of a JS array. -/
inductive JsItems where
  | nil
  | cons (v : JsValue) (rest : JsItems)
  deriving DecidableEq, Repr

/-- Key/value fields of a JS object, in insertion order. -/
inductive JsFields where
  | nil
  | cons (k : String) (v : JsValue) (rest : JsFields)
  deriving DecidableEq, Repr

end

/-- First field bound to `key`, if any (JSON.parse never produces duplicate
keys, the parser keeps one binding per key). -/
def JsFields.lookup : JsFields → String → Option JsValue
  | .nil, _ => none
  | .cons k v rest, key => if k = key then some v else rest.lookup key

/-- JavaScript truthiness of a value, as used by the source's `if (apiUrl)`,
`data.error || …`, `data.message || …` and `if (!websiteMaster._id)`
checks: `undefined`, `null`, `false`, `0` and `""` are falsy, everything
else (including every object and array) is truthy. -/
def jsTruthy : JsValue → Bool
  | .undefined => false
  | .null => false
  | .bool b => b
  | .num n => n != 0
  | .str s => s != ""
  | .arr _ => true
  | .obj _ => true

/-- A thrown JavaScript value: either an `Error` instance carrying its
`.message` string, or any other value (JS lets arbitrary values be
thrown). -/
inductive Thrown where
  | jsError (message : String)
  | value (v : JsValue)
  deriving DecidableEq, Repr

/-- The source's catch-clause expression
`error instanceof Error ? error.message : <fallback>`. -/
def Thrown.messageOr (e : Thrown) (fallback : String) : String :=
  match e with
  | .jsError m => m
  | .value _ => fallback

/-- Property read `v.key`.  Reading a property of `null` or `undefined`
throws a `TypeError`; reading a missing property of any other value yields
`undefined`. -/
def JsValue.getProp (v : JsValue) (key : String) : Except Thrown JsValue :=
  match v with
  | .null =>
      .error (.jsError ("Cannot read properties of null (reading " ++ key ++ ")"))
  | .undefined =>
      .error (.jsError ("Cannot read properties of undefined (reading " ++ key ++ ")"))
  | .obj fields => .ok ((fields.lookup key).getD .undefined)
  | _ => .ok .undefined

/-- The `UpdateWebsiteMasterOptions` interface: both properties optional;
`none` models an absent (or `undefined`) property. -/
structure UpdateWebsiteMasterOptions where
  sendEmailNotification : Option Bool := none
  apiUrl : Option String := none
  deriving DecidableEq, Repr

/-- Ambient execution context: `window.location.origin` when running in a
browser with a (truthy) `location`, and the `NEXT_PUBLIC_APP_URL`
environment variable when set. -/
structure Env where
  windowOrigin : Option String := none
  nextPublicAppUrl : Option String := none
  deriving DecidableEq, Repr

/-- The request the source hands to `fetch`: URL, method, the single
`Content-Type` header and the object passed to `JSON.stringify`. -/
structure FetchRequest where
  url : String
  method : String
  contentType : String
  body : JsValue
  deriving DecidableEq, Repr

/-- What one `fetch` response looks like to the source: `status`,
`statusText`, and the outcome of `await response.json()` (which throws when
the body is empty or not valid JSON).  `response.ok` is derived below, as
the fetch standard defines it. -/
structure HttpResponse where
  status : Nat
  statusText : String
  jsonBody : Except Thrown JsValue
  deriving Repr

/-- `response.ok` per the WHATWG fetch standard: status in 200..299. -/
def HttpResponse.ok (r : HttpResponse) : Bool :=
  200 ≤ r.status && r.status ≤ 299

/-- Behaviour of one `await fetch(...)` call: either the promise rejects
with a thrown value, or a response arrives. -/
inductive FetchOutcome where
  | throws (e : Thrown)
  | resp (r : HttpResponse)

/-- A world in which `fetch` always throws `e`. -/
def fetchThrowing (e : Thrown) : FetchRequest → FetchOutcome :=
  fun _ => FetchOutcome.throws e

/-- A world in which `fetch` always returns the response `r`. -/
def fetchReturning (r : HttpResponse) : FetchRequest → FetchOutcome :=
  fun _ => FetchOutcome.resp r

/-- JS truthiness of `string | undefined`, for `if (apiUrl)` and
`if (process.env.NEXT_PUBLIC_APP_URL)`: absent and `""` are falsy. -/
def truthyStrOpt : Option String → Bool
  | none => false
  | some s => s != ""

/-- The fixed endpoint suffix `/api/userActions/update-website`. -/
def updateWebsiteSuffix : String := "/api/userActions/update-website"

/-- The source's `apiUrl.replace(/\/$/, '')`: removes one trailing slash
when the string ends in `/`, otherwise leaves it unchanged. -/
def stripTrailingSlash (s : String) : String :=
  if s.data.getLast? = some '/' then String.mk s.data.dropLast else s

/-- Endpoint resolution of `updateWebsiteMaster` (its first `if`/`else if`
chain): truthy `apiUrl` override, else browsing-context origin, else truthy
`NEXT_PUBLIC_APP_URL`, else the bare suffix. -/
def resolveEndpoint (apiUrl : Option String) (env : Env) : String :=
  if truthyStrOpt apiUrl then
    stripTrailingSlash (apiUrl.getD "") ++ updateWebsiteSuffix
  else
    match env.windowOrigin with
    | some origin => origin ++ updateWebsiteSuffix
    | none =>
        if truthyStrOpt env.nextPublicAppUrl then
          env.nextPublicAppUrl.getD "" ++ updateWebsiteSuffix
        else
          updateWebsiteSuffix

/-- The `UpdateWebsiteMasterResult` interface.  Optional properties are
`JsValue.undefined` when a return object literal omits them; runtime values
of `data.error`, `data.message`, `data.websiteId`, `data.website` can be
arbitrary JSON values, so the fields are `JsValue`. -/
structure UpdateResult where
  success : Bool
  message : JsValue := JsValue.undefined
  websiteId : JsValue := JsValue.undefined
  website : JsValue := JsValue.undefined
  error : JsValue := JsValue.undefined
  deriving DecidableEq, Repr

/-- The argument object of the source's `fetch(endpoint, {...})` call:
`PUT`, JSON content type, body `JSON.stringify({websiteId, updates,
sendEmailNotification})`. -/
def builtRequest (websiteId updates : JsValue)
    (options : UpdateWebsiteMasterOptions) (env : Env) : FetchRequest :=
  { url := resolveEndpoint options.apiUrl env
    method := "PUT"
    contentType := "application/json"
    body := JsValue.obj (JsFields.cons "websiteId" websiteId
      (JsFields.cons "updates" updates
        (JsFields.cons "sendEmailNotification"
          (JsValue.bool (options.sendEmailNotification.getD true))
          JsFields.nil))) }

/-- The result built by the source's catch clause in `updateWebsiteMaster`:
`{success: false, error: error instanceof Error ? error.message : "Unknown
error occurred", websiteId}`. -/
def caughtResult (websiteId : JsValue) (e : Thrown) : UpdateResult :=
  { success := false
    error := JsValue.str (e.messageOr "Unknown error occurred")
    websiteId := websiteId }

/-- Body of `updateWebsiteMaster` after the single `fetch` call (the rest
of its `try` block, plus the `catch` clause): maps the outcome of the call
to the returned result.  The order of the property reads mirrors the source
(`data.error` on the failure branch; `data.message`, `data.websiteId`,
`data.website` in the success object literal), so a `TypeError` from a
nullish `data` is caught exactly where the source would raise it. -/
def handleFetchOutcome (websiteId : JsValue) (outcome : FetchOutcome) :
    UpdateResult :=
  match outcome with
  | .throws e => caughtResult websiteId e
  | .resp response =>
      match response.jsonBody with
      | .error e => caughtResult websiteId e
      | .ok data =>
          if !response.ok then
            match data.getProp "error" with
            | .error e => caughtResult websiteId e
            | .ok errVal =>
                { success := false
                  error :=
                    if jsTruthy errVal then errVal
                    else JsValue.str
                      ("HTTP " ++ toString response.status ++ ": "
                        ++ response.statusText)
                  websiteId := websiteId }
          else
            match data.getProp "message", data.getProp "websiteId",
                data.getProp "website" with
            | .ok m, .ok wid, .ok w =>
                { success := true
                  message :=
                    if jsTruthy m then m
                    else JsValue.str "Website updated successfully"
                  websiteId := wid
                  website := w }
            | .error e, _, _ => caughtResult websiteId e
            | _, .error e, _ => caughtResult websiteId e
            | _, _, .error e => caughtResult websiteId e

/-- The function `updateWebsiteMaster` of the source.  `websiteId` is a
`JsValue` because the TS `string` annotation is erased at runtime and the
in-repo caller `updateWebsiteMasterFromFile` passes the parsed (untyped)
`websiteMaster._id`.  Besides the result, the list of issued fetch requests
is returned; the source calls `fetch` exactly once, unconditionally, so
the list is always the singleton of the built request. -/
def updateWebsiteMaster (websiteId updates : JsValue)
    (options : UpdateWebsiteMasterOptions) (env : Env)
    (fetchFn : FetchRequest → FetchOutcome) :
    UpdateResult × List FetchRequest :=
  (handleFetchOutcome websiteId
      (fetchFn (builtRequest websiteId updates options env)),
   [builtRequest websiteId updates options env])

/-- The fixed error message of `updateWebsiteMasterFromFile` for a document
without a truthy `_id`. -/
def missingIdMessage : String :=
  "websiteData.json does not contain _id field. Make sure the website has been saved to the database first."

/-- The result built by the catch clause of `updateWebsiteMasterFromFile`
(no `websiteId` property is set there). -/
def fileCaughtResult (e : Thrown) : UpdateResult :=
  { success := false
    error := JsValue.str (e.messageOr "Failed to read websiteData.json") }

/-- The function `updateWebsiteMasterFromFile` of the source.  `parsed` is
the composite outcome of `fs.readFile(websiteDataPath, "utf-8")` followed
by `JSON.parse` — both platform primitives outside the repository — whose
failure is the thrown exception the source's catch clause receives.  The
inner `updateWebsiteMaster` call never throws, so the catch clause around
it is reached only from the read/parse step and the `._id` access. -/
def updateWebsiteMasterFromFile (parsed : Except Thrown JsValue)
    (options : UpdateWebsiteMasterOptions) (env : Env)
    (fetchFn : FetchRequest → FetchOutcome) :
    UpdateResult × List FetchRequest :=
  match parsed with
  | .error e => (fileCaughtResult e, [])
  | .ok websiteMaster =>
      match websiteMaster.getProp "_id" with
      | .error e => (fileCaughtResult e, [])
      | .ok idVal =>
          if !jsTruthy idVal then
            ({ success := false, error := JsValue.str missingIdMessage }, [])
          else
            updateWebsiteMaster idVal websiteMaster options env fetchFn

/-! Concrete fixtures used by witnesses and counterexamples. -/

/-- A 200 response with body `{"message": "ok"}`. -/
def ok200resp : HttpResponse :=
  { status := 200, statusText := "OK"
    jsonBody := Except.ok (JsValue.obj
      (JsFields.cons "message" (JsValue.str "ok") JsFields.nil)) }

/-- The spec's success test body
`{"message": "ok", "websiteId": "xyz", "website": {"a": 1}}`. -/
def specSuccessBody : JsFields :=
  JsFields.cons "message" (JsValue.str "ok")
    (JsFields.cons "websiteId" (JsValue.str "xyz")
      (JsFields.cons "website"
        (JsValue.obj (JsFields.cons "a" (JsValue.num 1) JsFields.nil))
        JsFields.nil))

/-- A parsed document whose `_id` field is present but the empty string. -/
def emptyIdDoc : JsValue :=
  JsValue.obj (JsFields.cons "_id" (JsValue.str "") JsFields.nil)

/-- A well-formed parsed document with `_id = "abc123"`. -/
def abcDoc : JsFields :=
  JsFields.cons "_id" (JsValue.str "abc123")
    (JsFields.cons "websiteName" (JsValue.str "W") JsFields.nil)

/-- Whether `pat` occurs as a prefix of the character list `s`. -/
def charsStartWith : List Char → List Char → Bool
  | _, [] => true
  | [], _ :: _ => false
  | c :: cs, p :: ps => c == p && charsStartWith cs ps

/-- Whether `pat` occurs as a contiguous segment of `s`. -/
def charsContain : List Char → List Char → Bool
  | [], pat => pat.isEmpty
  | c :: cs, pat => charsStartWith (c :: cs) pat || charsContain cs pat

/-- Substring containment on strings, used to state the spec's
"error string containing 500" condition. -/
def strContains (s pat : String) : Bool := charsContain s.data pat.data

/-! Helper lemmas shared by the claim theorems. -/

theorem jsTruthy_ne_undefined {v : JsValue} (h : jsTruthy v = true) :
    v ≠ JsValue.undefined := by
  intro hv
  subst hv
  simp [jsTruthy] at h

theorem update_requests (websiteId updates : JsValue)
    (options : UpdateWebsiteMasterOptions) (env : Env)
    (fetchFn : FetchRequest → FetchOutcome) :
    (updateWebsiteMaster websiteId updates options env fetchFn).2 =
      [builtRequest websiteId updates options env] := rfl

theorem update_fst (websiteId updates : JsValue)
    (options : UpdateWebsiteMasterOptions) (env : Env)
    (fetchFn : FetchRequest → FetchOutcome) :
    (updateWebsiteMaster websiteId updates options env fetchFn).1 =
      handleFetchOutcome websiteId
        (fetchFn (builtRequest websiteId updates options env)) := rfl

theorem handle_one_variant (websiteId : JsValue) (outcome : FetchOutcome) :
    ((handleFetchOutcome websiteId outcome).success = true ∧
     (handleFetchOutcome websiteId outcome).error = JsValue.undefined) ∨
    ((handleFetchOutcome websiteId outcome).success = false ∧
     (handleFetchOutcome websiteId outcome).error ≠ JsValue.undefined) := by
  cases outcome with
  | throws e =>
      exact Or.inr ⟨rfl, by simp [handleFetchOutcome, caughtResult]⟩
  | resp response =>
      cases hb : response.jsonBody with
      | error e =>
          exact Or.inr ⟨by simp [handleFetchOutcome, hb, caughtResult],
            by simp [handleFetchOutcome, hb, caughtResult]⟩
      | ok data =>
          cases hok : response.ok with
          | false =>
              cases hg : data.getProp "error" with
              | error e =>
                  exact Or.inr
                    ⟨by simp [handleFetchOutcome, hb, hok, hg, caughtResult],
                     by simp [handleFetchOutcome, hb, hok, hg, caughtResult]⟩
              | ok errVal =>
                  refine Or.inr
                    ⟨by simp [handleFetchOutcome, hb, hok, hg], ?_⟩
                  cases ht : jsTruthy errVal with
                  | true =>
                      simpa [handleFetchOutcome, hb, hok, hg, ht]
                        using jsTruthy_ne_undefined ht
                  | false =>
                      simp [handleFetchOutcome, hb, hok, hg, ht]
          | true =>
              cases hm : data.getProp "message" with
              | error e =>
                  exact Or.inr
                    ⟨by simp [handleFetchOutcome, hb, hok, hm, caughtResult],
                     by simp [handleFetchOutcome, hb, hok, hm, caughtResult]⟩
              | ok m =>
                  cases hw : data.getProp "websiteId" with
                  | error e2 =>
                      exact Or.inr
                        ⟨by simp [handleFetchOutcome, hb, hok, hm, hw,
                            caughtResult],
                         by simp [handleFetchOutcome, hb, hok, hm, hw,
                            caughtResult]⟩
                  | ok wid =>
                      cases hwe : data.getProp "website" with
                      | error e3 =>
                          exact Or.inr
                            ⟨by simp [handleFetchOutcome, hb, hok, hm, hw,
                                hwe, caughtResult],
                             by simp [handleFetchOutcome, hb, hok, hm, hw,
                                hwe, caughtResult]⟩
                      | ok w =>
                          exact Or.inl
                            ⟨by simp [handleFetchOutcome, hb, hok, hm, hw,
                                hwe],
                             by simp [handleFetchOutcome, hb, hok, hm, hw,
                                hwe]⟩

theorem fromFile_one_variant (parsed : Except Thrown JsValue)
    (options : UpdateWebsiteMasterOptions) (env : Env)
    (fetchFn : FetchRequest → FetchOutcome) :
    ((updateWebsiteMasterFromFile parsed options env fetchFn).1.success = true ∧
     (updateWebsiteMasterFromFile parsed options env fetchFn).1.error =
       JsValue.undefined) ∨
    ((updateWebsiteMasterFromFile parsed options env fetchFn).1.success = false ∧
     (updateWebsiteMasterFromFile parsed options env fetchFn).1.error ≠
       JsValue.undefined) := by
  cases parsed with
  | error e =>
      exact Or.inr
        ⟨by simp [updateWebsiteMasterFromFile, fileCaughtResult],
         by simp [updateWebsiteMasterFromFile, fileCaughtResult]⟩
  | ok doc =>
      cases hg : doc.getProp "_id" with
      | error e =>
          exact Or.inr
            ⟨by simp [updateWebsiteMasterFromFile, hg, fileCaughtResult],
             by simp [updateWebsiteMasterFromFile, hg, fileCaughtResult]⟩
      | ok idVal =>
          cases ht : jsTruthy idVal with
          | false =>
              exact Or.inr
                ⟨by simp [updateWebsiteMasterFromFile, hg, ht],
                 by simp [updateWebsiteMasterFromFile, hg, ht]⟩
          | true =>
              have h := handle_one_variant idVal
                (fetchFn (builtRequest idVal doc options env))
              simpa [updateWebsiteMasterFromFile, hg, ht,
                updateWebsiteMaster] using h

/-- C1: for every input, `updateWebsiteMaster` returns exactly one of the
two result variants — success flag `true` with no `error` property, or
success flag `false` with an `error` property set — and the same holds for
`updateWebsiteMasterFromFile` for every read/parse outcome and options
input.  No exception escapes either operation: both are total functions of
the modelled inputs, every throwing step (the fetch call, `response.json()`,
property reads on nullish values, the file read/parse) is routed through
the `Except`/`Thrown` model and lands in a `Failure` result. -/
theorem C1_exactly_one_variant (websiteId updates : JsValue)
    (options : UpdateWebsiteMasterOptions) (env : Env)
    (fetchFn : FetchRequest → FetchOutcome)
    (parsed : Except Thrown JsValue) :
    (((updateWebsiteMaster websiteId updates options env fetchFn).1.success =
        true ∧
      (updateWebsiteMaster websiteId updates options env fetchFn).1.error =
        JsValue.undefined) ∨
     ((updateWebsiteMaster websiteId updates options env fetchFn).1.success =
        false ∧
      (updateWebsiteMaster websiteId updates options env fetchFn).1.error ≠
        JsValue.undefined)) ∧
    (((updateWebsiteMasterFromFile parsed options env fetchFn).1.success =
        true ∧
      (updateWebsiteMasterFromFile parsed options env fetchFn).1.error =
        JsValue.undefined) ∨
     ((updateWebsiteMasterFromFile parsed options env fetchFn).1.success =
        false ∧
      (updateWebsiteMasterFromFile parsed options env fetchFn).1.error ≠
        JsValue.undefined)) :=
  ⟨handle_one_variant websiteId
      (fetchFn (builtRequest websiteId updates options env)),
   fromFile_one_variant parsed options env fetchFn⟩

/-- C2 counterexample: the claim says a given endpoint override is always
used, regardless of browsing context.  With `apiUrl` given as the empty
string, the source's `if (apiUrl)` check is falsy, so the browsing-context
origin wins instead of `stripTrailingSlash("") + suffix`. -/
theorem C2_counterexample :
    ((updateWebsiteMaster (JsValue.str "id1") JsValue.null
        { apiUrl := some "" } { windowOrigin := some "http://example.com" }
        (fetchReturning ok200resp)).2.map FetchRequest.url =
      ["http://example.com/api/userActions/update-website"]) ∧
    "http://example.com/api/userActions/update-website" ≠
      stripTrailingSlash "" ++ updateWebsiteSuffix :=
  ⟨by decide, by decide⟩

/-- C2 (amended): the endpoint of the one issued request is resolved by
first-match-wins precedence, where "given"/"set" means truthy (non-empty
string), as the source's `if (apiUrl)` / `if (process.env.NEXT_PUBLIC_APP_URL)`
checks require: a non-empty override is used (one trailing slash stripped,
fixed suffix appended) regardless of context or configuration; else a
browsing-context origin; else a non-empty configured base URL; else the
suffix alone. -/
theorem C2_endpoint_precedence (websiteId updates : JsValue)
    (options : UpdateWebsiteMasterOptions) (env : Env)
    (fetchFn : FetchRequest → FetchOutcome) :
    ((updateWebsiteMaster websiteId updates options env fetchFn).2.map
        FetchRequest.url = [resolveEndpoint options.apiUrl env]) ∧
    (∀ u, options.apiUrl = some u → u ≠ "" →
      resolveEndpoint options.apiUrl env =
        stripTrailingSlash u ++ updateWebsiteSuffix) ∧
    (truthyStrOpt options.apiUrl = false → ∀ o, env.windowOrigin = some o →
      resolveEndpoint options.apiUrl env = o ++ updateWebsiteSuffix) ∧
    (truthyStrOpt options.apiUrl = false → env.windowOrigin = none →
      ∀ c, env.nextPublicAppUrl = some c → c ≠ "" →
      resolveEndpoint options.apiUrl env = c ++ updateWebsiteSuffix) ∧
    (truthyStrOpt options.apiUrl = false → env.windowOrigin = none →
      truthyStrOpt env.nextPublicAppUrl = false →
      resolveEndpoint options.apiUrl env = updateWebsiteSuffix) := by
  refine ⟨by simp [update_requests, builtRequest], ?_, ?_, ?_, ?_⟩
  · intro u hu hne
    simp [resolveEndpoint, truthyStrOpt, hu, hne]
  · intro hfalse o ho
    simp [resolveEndpoint, hfalse, ho]
  · intro hfalse hwin c hc hcne
    unfold resolveEndpoint
    rw [hfalse, hwin, hc]
    simp [truthyStrOpt, hcne]
  · intro h1 h2 h3
    simp [resolveEndpoint, h1, h2, h3]

/-- C2 witness: a concrete non-empty override with a trailing slash is used
even though a browsing-context origin exists. -/
theorem C2_endpoint_precedence_witness :
    resolveEndpoint (some "http://x/") { windowOrigin := some "http://y" } =
      stripTrailingSlash "http://x/" ++ updateWebsiteSuffix :=
  (C2_endpoint_precedence (JsValue.str "id1") JsValue.null
      { apiUrl := some "http://x/" } { windowOrigin := some "http://y" }
      (fetchReturning ok200resp)).2.1 "http://x/" rfl (by decide)

/-- C3 counterexample: a 404 response whose body has an `error` field that
is present but falsy (the empty string) yields the synthesized status
string, not the body's `error` value as the claim states. -/
theorem C3_counterexample :
    ((updateWebsiteMaster (JsValue.str "id1") JsValue.null {} {}
        (fetchReturning ⟨404, "Not Found",
          Except.ok (JsValue.obj
            (JsFields.cons "error" (JsValue.str "") JsFields.nil))⟩)).1 =
      { success := false, error := JsValue.str "HTTP 404: Not Found",
        websiteId := JsValue.str "id1" }) ∧
    JsValue.str "HTTP 404: Not Found" ≠ JsValue.str "" :=
  ⟨by decide, by decide⟩

theorem update_resp_obj_non2xx (websiteId updates : JsValue)
    (options : UpdateWebsiteMasterOptions) (env : Env)
    (status : Nat) (statusText : String) (fields : JsFields)
    (h : (200 ≤ status && status ≤ 299) = false) :
    (updateWebsiteMaster websiteId updates options env
        (fetchReturning ⟨status, statusText,
          Except.ok (JsValue.obj fields)⟩)).1 =
      { success := false
        error :=
          if jsTruthy ((fields.lookup "error").getD JsValue.undefined)
          then (fields.lookup "error").getD JsValue.undefined
          else JsValue.str ("HTTP " ++ toString status ++ ": " ++ statusText)
        websiteId := websiteId } := by
  rw [update_fst]
  simp [handleFetchOutcome, fetchReturning, HttpResponse.ok,
    JsValue.getProp, h]

/-- C3 (amended): for every call where the response body parses as a JSON
object and the HTTP status is non-2xx, the result is `Failure` with
`error` equal to the body's `error` field when that field is present and
truthy — otherwise (absent or falsy) the synthesized `HTTP <status>:
<statusText>` string — and with `websiteId` echoing the input.  (A body
parsing to `null` instead takes the catch path with a `TypeError`
message, and a present-but-falsy `error` field is overridden, which is
what the counterexample exhibits.) -/
theorem C3_non2xx_error_shaping (websiteId updates : JsValue)
    (options : UpdateWebsiteMasterOptions) (env : Env)
    (status : Nat) (statusText : String) (fields : JsFields)
    (h : (200 ≤ status && status ≤ 299) = false) :
    (updateWebsiteMaster websiteId updates options env
        (fetchReturning ⟨status, statusText,
          Except.ok (JsValue.obj fields)⟩)).1 =
      { success := false
        error :=
          if jsTruthy ((fields.lookup "error").getD JsValue.undefined)
          then (fields.lookup "error").getD JsValue.undefined
          else JsValue.str ("HTTP " ++ toString status ++ ": " ++ statusText)
        websiteId := websiteId } :=
  update_resp_obj_non2xx websiteId updates options env status statusText
    fields h

/-- C3 witness: the spec's 404 vector — body `{"error": "not found"}` gives
`Failure{error: "not found", websiteId: <input>}`. -/
theorem C3_non2xx_error_shaping_witness :
    (updateWebsiteMaster (JsValue.str "id1") JsValue.null {} {}
        (fetchReturning ⟨404, "Not Found",
          Except.ok (JsValue.obj
            (JsFields.cons "error" (JsValue.str "not found")
              JsFields.nil))⟩)).1 =
      { success := false, error := JsValue.str "not found",
        websiteId := JsValue.str "id1" } :=
  (C3_non2xx_error_shaping (JsValue.str "id1") JsValue.null {} {} 404
      "Not Found" (JsFields.cons "error" (JsValue.str "not found")
        JsFields.nil) (by decide)).trans (by decide)

/-- C4 counterexample: an HTTP 500 response with an empty body makes
`response.json()` throw a SyntaxError ("Unexpected end of JSON input"); the
catch clause surfaces that message, so the resulting error string does not
contain "500" as the claim states. -/
theorem C4_counterexample :
    ((updateWebsiteMaster (JsValue.str "id1") JsValue.null {} {}
        (fetchReturning ⟨500, "Internal Server Error",
          Except.error (Thrown.jsError "Unexpected end of JSON input")⟩)).1 =
      { success := false,
        error := JsValue.str "Unexpected end of JSON input",
        websiteId := JsValue.str "id1" }) ∧
    strContains "Unexpected end of JSON input" "500" = false :=
  ⟨by decide, by decide⟩

/-- C4 (amended): a response whose body parsing throws — as an empty body
does, since it is not valid JSON — yields `Failure` with `error` equal to
the parse exception's message (or the fixed fallback for a non-Error
thrown value) and `websiteId` echoing the input, for any status including
500; the error string does not mention the status code. -/
theorem C4_parse_throw_failure (websiteId updates : JsValue)
    (options : UpdateWebsiteMasterOptions) (env : Env)
    (status : Nat) (statusText : String) (e : Thrown) :
    (updateWebsiteMaster websiteId updates options env
        (fetchReturning ⟨status, statusText, Except.error e⟩)).1 =
      { success := false
        error := JsValue.str (e.messageOr "Unknown error occurred")
        websiteId := websiteId } := rfl

/-- C5 counterexample: a 200 response whose body has a `message` field that
is present but falsy (the empty string) yields the fixed default message,
not the body's `message` value as the claim states. -/
theorem C5_counterexample :
    ((updateWebsiteMaster (JsValue.str "id1") JsValue.null {} {}
        (fetchReturning ⟨200, "OK",
          Except.ok (JsValue.obj
            (JsFields.cons "message" (JsValue.str "") JsFields.nil))⟩)).1.message =
      JsValue.str "Website updated successfully") ∧
    JsValue.str "Website updated successfully" ≠ JsValue.str "" :=
  ⟨by decide, by decide⟩

theorem update_resp_obj_2xx (websiteId updates : JsValue)
    (options : UpdateWebsiteMasterOptions) (env : Env)
    (status : Nat) (statusText : String) (fields : JsFields)
    (h : (200 ≤ status && status ≤ 299) = true) :
    (updateWebsiteMaster websiteId updates options env
        (fetchReturning ⟨status, statusText,
          Except.ok (JsValue.obj fields)⟩)).1 =
      { success := true
        message :=
          if jsTruthy ((fields.lookup "message").getD JsValue.undefined)
          then (fields.lookup "message").getD JsValue.undefined
          else JsValue.str "Website updated successfully"
        websiteId := (fields.lookup "websiteId").getD JsValue.undefined
        website := (fields.lookup "website").getD JsValue.undefined } := by
  rw [update_fst]
  simp [handleFetchOutcome, fetchReturning, HttpResponse.ok,
    JsValue.getProp, h]

/-- C5 (amended): for every call where the response body parses as a JSON
object and the HTTP status is 2xx, the result is `Success` with `message`
equal to the body's `message` field when present and truthy — otherwise
the fixed default string — `websiteId` taken from the response body (not
the input), and `website` taken from the body (possibly absent).  (A body
parsing to `null` instead takes the catch path, and a present-but-falsy
`message` is replaced by the default, which is what the counterexample
exhibits.) -/
theorem C5_success_shaping (websiteId updates : JsValue)
    (options : UpdateWebsiteMasterOptions) (env : Env)
    (status : Nat) (statusText : String) (fields : JsFields)
    (h : (200 ≤ status && status ≤ 299) = true) :
    (updateWebsiteMaster websiteId updates options env
        (fetchReturning ⟨status, statusText,
          Except.ok (JsValue.obj fields)⟩)).1 =
      { success := true
        message :=
          if jsTruthy ((fields.lookup "message").getD JsValue.undefined)
          then (fields.lookup "message").getD JsValue.undefined
          else JsValue.str "Website updated successfully"
        websiteId := (fields.lookup "websiteId").getD JsValue.undefined
        website := (fields.lookup "website").getD JsValue.undefined } :=
  update_resp_obj_2xx websiteId updates options env status statusText
    fields h

/-- C5 witness: the spec's 200 vector — body `{"message": "ok",
"websiteId": "xyz", "website": {"a": 1}}` gives `Success{message: "ok",
websiteId: "xyz", website: {"a": 1}}`. -/
theorem C5_success_shaping_witness :
    (updateWebsiteMaster (JsValue.str "id1") JsValue.null {} {}
        (fetchReturning ⟨200, "OK", Except.ok (JsValue.obj specSuccessBody)⟩)).1 =
      { success := true, message := JsValue.str "ok",
        websiteId := JsValue.str "xyz",
        website := JsValue.obj (JsFields.cons "a" (JsValue.num 1)
          JsFields.nil) } :=
  (C5_success_shaping (JsValue.str "id1") JsValue.null {} {} 200 "OK"
      specSuccessBody (by decide)).trans (by decide)

/-- C6 counterexample: the claim says the fixed fallback is used only when
the thrown value carries no message; but the source checks `instanceof
Error`, so a thrown plain object carrying `message: "boom"` still gets the
fallback. -/
theorem C6_counterexample :
    ((updateWebsiteMaster (JsValue.str "id1") JsValue.null {} {}
        (fetchThrowing (Thrown.value (JsValue.obj
          (JsFields.cons "message" (JsValue.str "boom")
            JsFields.nil))))).1.error =
      JsValue.str "Unknown error occurred") ∧
    JsValue.str "Unknown error occurred" ≠ JsValue.str "boom" :=
  ⟨by decide, by decide⟩

/-- C6 (amended): when the network call throws, the exception is caught and
the result is `Failure` with `error` equal to the thrown value's message
when it is an `Error` instance, and the fixed fallback string "Unknown
error occurred" for any non-Error thrown value (even one carrying a
`message` property); `websiteId` echoes the input.  In particular a thrown
`Error` with message "ECONNREFUSED" yields that message. -/
theorem C6_thrown_normalization (websiteId updates : JsValue)
    (options : UpdateWebsiteMasterOptions) (env : Env) (e : Thrown) :
    (updateWebsiteMaster websiteId updates options env (fetchThrowing e)).1 =
      { success := false
        error := JsValue.str (e.messageOr "Unknown error occurred")
        websiteId := websiteId } := rfl

/-- C7: for every call to `updateWebsiteMasterFromFile` where the file is
read and parsed as a JSON object that lacks an `_id` key, the result is
`Failure` with the fixed descriptive error message and no `websiteId`
populated, and no network call is issued — the request list is empty, and
since `updateWebsiteMaster` always issues exactly one request, the empty
list also shows it was never invoked.  (A parsed JSON object never binds a
key to `undefined`, so "lacks the field" is exactly "the key is absent".) -/
theorem C7_missing_id_no_network (fields : JsFields)
    (options : UpdateWebsiteMasterOptions) (env : Env)
    (fetchFn : FetchRequest → FetchOutcome)
    (h : fields.lookup "_id" = none) :
    updateWebsiteMasterFromFile (Except.ok (JsValue.obj fields)) options
        env fetchFn =
      ({ success := false, error := JsValue.str missingIdMessage }, []) := by
  unfold updateWebsiteMasterFromFile
  simp [JsValue.getProp, h, jsTruthy]

/-- C7 witness: a document `{"websiteName": "W"}` without `_id`. -/
theorem C7_missing_id_no_network_witness :
    (JsFields.lookup (JsFields.cons "websiteName" (JsValue.str "W")
        JsFields.nil) "_id" = none) ∧
    updateWebsiteMasterFromFile
        (Except.ok (JsValue.obj (JsFields.cons "websiteName"
          (JsValue.str "W") JsFields.nil))) {} {}
        (fetchReturning ok200resp) =
      ({ success := false, error := JsValue.str missingIdMessage }, []) :=
  ⟨by decide,
   C7_missing_id_no_network
     (JsFields.cons "websiteName" (JsValue.str "W") JsFields.nil) {} {}
     (fetchReturning ok200resp) (by decide)⟩

/-- C8 counterexample: the claim says any parsed document containing an
`_id` field is delegated to `updateWebsiteMaster`; but the source's
`if (!websiteMaster._id)` check is a truthiness test, so a document with
`_id` present but equal to `""` returns the fixed `Failure` without
calling `updateWebsiteMaster` at all, and the two results differ. -/
theorem C8_counterexample :
    updateWebsiteMasterFromFile (Except.ok emptyIdDoc) {} {}
        (fetchReturning ok200resp) ≠
      updateWebsiteMaster (JsValue.str "") emptyIdDoc {} {}
        (fetchReturning ok200resp) := by
  decide

/-- C8 (amended): for every call to `updateWebsiteMasterFromFile` where the
parsed document is a JSON object whose `_id` field is present and truthy,
the call returns exactly the result of `updateWebsiteMaster` invoked with
that `_id` value as the identifier argument and the entire parsed document
(including its `_id` field) as the updates argument. -/
theorem C8_delegation (fields : JsFields)
    (options : UpdateWebsiteMasterOptions) (env : Env)
    (fetchFn : FetchRequest → FetchOutcome)
    (h : jsTruthy ((fields.lookup "_id").getD JsValue.undefined) = true) :
    updateWebsiteMasterFromFile (Except.ok (JsValue.obj fields)) options
        env fetchFn =
      updateWebsiteMaster ((fields.lookup "_id").getD JsValue.undefined)
        (JsValue.obj fields) options env fetchFn := by
  unfold updateWebsiteMasterFromFile
  simp [JsValue.getProp, h]

/-- C8 witness: the spec's vector — a document with `_id = "abc123"`
delegates with identifier `"abc123"` and the full document as updates. -/
theorem C8_delegation_witness :
    (jsTruthy ((JsFields.lookup abcDoc "_id").getD JsValue.undefined) =
      true) ∧
    updateWebsiteMasterFromFile (Except.ok (JsValue.obj abcDoc)) {} {}
        (fetchReturning ok200resp) =
      updateWebsiteMaster ((JsFields.lookup abcDoc "_id").getD
          JsValue.undefined) (JsValue.obj abcDoc) {} {}
        (fetchReturning ok200resp) :=
  ⟨by decide, C8_delegation abcDoc {} {} (fetchReturning ok200resp)
    (by decide)⟩

/-- C9: for every call to `updateWebsiteMaster`, the one outbound request
is a PUT with a `Content-Type: application/json` header whose JSON body
contains exactly the fields `websiteId` (the spec's `identifier`),
`updates`, and `sendEmailNotification` (the spec's `sendNotification`);
and when the caller does not set the notification option, the body's
`sendEmailNotification` field is `true`. -/
theorem C9_request_shape (websiteId updates : JsValue)
    (options : UpdateWebsiteMasterOptions) (env : Env)
    (fetchFn : FetchRequest → FetchOutcome) :
    ((updateWebsiteMaster websiteId updates options env fetchFn).2 =
      [{ url := resolveEndpoint options.apiUrl env
         method := "PUT"
         contentType := "application/json"
         body := JsValue.obj (JsFields.cons "websiteId" websiteId
           (JsFields.cons "updates" updates
             (JsFields.cons "sendEmailNotification"
               (JsValue.bool (options.sendEmailNotification.getD true))
               JsFields.nil))) }]) ∧
    (options.sendEmailNotification = none →
      (updateWebsiteMaster websiteId updates options env fetchFn).2 =
        [{ url := resolveEndpoint options.apiUrl env
           method := "PUT"
           contentType := "application/json"
           body := JsValue.obj (JsFields.cons "websiteId" websiteId
             (JsFields.cons "updates" updates
               (JsFields.cons "sendEmailNotification" (JsValue.bool true)
                 JsFields.nil))) }]) := by
  refine ⟨update_requests websiteId updates options env fetchFn, fun hn => ?_⟩
  rw [update_requests]
  simp [builtRequest, hn]

/-- C9 witness: with no options set, the issued request is a PUT to the
relative default endpoint with `sendEmailNotification: true` in the body. -/
theorem C9_request_shape_witness :
    (updateWebsiteMaster (JsValue.str "id1") JsValue.null {} {}
        (fetchReturning ok200resp)).2 =
      [{ url := "/api/userActions/update-website"
         method := "PUT"
         contentType := "application/json"
         body := JsValue.obj (JsFields.cons "websiteId" (JsValue.str "id1")
           (JsFields.cons "updates" JsValue.null
             (JsFields.cons "sendEmailNotification" (JsValue.bool true)
               JsFields.nil))) }] :=
  ((C9_request_shape (JsValue.str "id1") JsValue.null {} {}
      (fetchReturning ok200resp)).2 rfl).trans (by decide)

/-- C10: for every call receiving a non-2xx response whose parsed JSON
object body contains an `error` field whose value is falsy (for example
the empty string), the result's `error` is the synthesized
`HTTP <status>: <statusText>` string, not the body's `error` value,
because the source's `data.error || ...` uses the body value only when
truthy. -/
theorem C10_falsy_error_synthesized (websiteId updates : JsValue)
    (options : UpdateWebsiteMasterOptions) (env : Env)
    (status : Nat) (statusText : String) (fields : JsFields) (v : JsValue)
    (hstatus : (200 ≤ status && status ≤ 299) = false)
    (hfield : fields.lookup "error" = some v)
    (hfalsy : jsTruthy v = false) :
    (updateWebsiteMaster websiteId updates options env
        (fetchReturning ⟨status, statusText,
          Except.ok (JsValue.obj fields)⟩)).1.error =
      JsValue.str ("HTTP " ++ toString status ++ ": " ++ statusText) := by
  rw [update_resp_obj_non2xx websiteId updates options env status
    statusText fields hstatus]
  simp [hfield, hfalsy]

/-- C10 witness: status 404 with body `{"error": ""}` yields the
synthesized `HTTP 404: Not Found`. -/
theorem C10_falsy_error_synthesized_witness :
    (updateWebsiteMaster (JsValue.str "idw") JsValue.null {} {}
        (fetchReturning ⟨404, "Not Found",
          Except.ok (JsValue.obj
            (JsFields.cons "error" (JsValue.str "") JsFields.nil))⟩)).1.error =
      JsValue.str ("HTTP " ++ toString 404 ++ ": " ++ "Not Found") :=
  C10_falsy_error_synthesized (JsValue.str "idw") JsValue.null {} {} 404
    "Not Found" (JsFields.cons "error" (JsValue.str "") JsFields.nil)
    (JsValue.str "") (by decide) (by decide) (by decide)
